import Mathlib

/-!
Shallow embedding of the resto-match backend (Express/Mongoose, JavaScript)
and proofs about the claims of its specification.

Conventions of the embedding:
* JavaScript `undefined`-able values are `Option`; dereferencing a field of
  `undefined` (a `TypeError`) is modelled by the `crash` outcome, which the
  global error handler of `server.js` turns into a 500 response.
* Machine numbers that the code treats as exact (prices, amounts) are `ℚ`;
  counters and ids are `ℕ`.
* The MongoDB collections are lists of records; `findById` is `List.find?`
  on the id field, `save` appends or replaces, `findByIdAndUpdate` maps over
  the list.  Mongoose runs schema validators on `save()` but — as in the
  library’s default configuration used by this code — not on
  `findByIdAndUpdate`.
-/

namespace RestoMatch

/-- The JWT claims this backend puts in a token: `{ user: { id, role } }`
(`src/routes` auth part, `payload`). -/
structure Claims where
  id : Nat
  role : String
deriving DecidableEq, Repr

/-- A token as the `jsonwebtoken` library sees it: either a well-formed token
signed with some secret, carrying claims and an expiry state, or a malformed
string.  This models the library at the level the repository uses it. -/
inductive Token where
  | signed (secret : String) (claims : Claims) (expired : Bool)
  | malformed (raw : String)
deriving DecidableEq, Repr

/-- Embedding of `jwt.verify(token, secret)`: succeeds exactly when the signature matches
the secret and the expiry has not elapsed; a malformed token, a wrong
signature or an elapsed expiry all throw (here: `none`). -/
def jwtVerify (t : Token) (secret : String) : Option Claims :=
  match t with
  | .signed s c expired => if s = secret && expired = false then some c else none
  | .malformed _ => none

/-- An inbound HTTP request as Express hands it to the first middleware:
the `x-auth-token` header may be absent, and `req.user` starts out
`undefined` — only the `auth` middleware ever populates it. -/
structure Req where
  xAuthToken : Option Token
  user : Option Claims
deriving DecidableEq, Repr

/-- A fresh inbound request carrying an optional token: Express initialises
`req.user` to `undefined`. -/
def mkReq (tok : Option Token) : Req := ⟨tok, none⟩

/-- Outcome of one middleware: pass control downstream (`next`), answer the
request itself (`respond`), or throw an uncaught exception (`crash`), which
the global error handler of `server.js` maps to a 500 response. -/
inductive MWResult (α : Type) where
  | next (a : α)
  | respond (status : Nat) (msg : String)
  | crash
deriving DecidableEq, Repr

/-- Embedding of `src/middleware/auth.js`: read the `x-auth-token` header; 401 when it is
absent, 401 when `jwt.verify` throws, otherwise set `req.user` to the
decoded claims and pass control on. -/
def auth (secret : String) (req : Req) : MWResult Claims :=
  match req.xAuthToken with
  | none => .respond 401 "Pas de token, autorisation refusée"
  | some token =>
    match jwtVerify token secret with
    | some claims => .next claims
    | none => .respond 401 "Token non valide"

/-- Embedding of `src/unnamed/part_001` (the `checkRole` middleware): reads
`req.user.role` with no check that `req.user` is populated — on a request
where no upstream middleware set it, the property access throws a
`TypeError` (`crash`).  Otherwise 403 when the role is outside the allowed
list, `next()` when it is inside. -/
def checkRole (roles : List String) (user : Option Claims) : MWResult Unit :=
  match user with
  | none => .crash
  | some u =>
    if roles.contains u.role then .next ()
    else .respond 403 "Accès refusé - Vous n’avez pas les permissions nécessaires"

/-! ### Records stored in the database -/

/-- A menu item document (`models/MenuItem` as the handlers construct it). -/
structure MenuItem where
  mid : Nat
  name : String
  description : String
  price : ℚ
  category : String
  image : String
  available : Bool
deriving DecidableEq, Repr

/-- A reservation document (`src/unnamed/part_000`, the Mongoose
`reservationSchema`).  Fields a payload may omit are `Option`; `status` is
always present because the schema defaults it to "pending" on save. -/
structure Reservation where
  rid : Nat
  name : Option String
  email : Option String
  phone : Option String
  date : Option String
  time : Option String
  rtype : Option String
  numberOfPeople : Option Int
  address : Option String
  specialRequests : Option String
  totalAmount : Option ℚ
  status : String
  createdAt : Nat
deriving DecidableEq, Repr

/-- A user document.  Modelled from the spec: `src/models/User.js` is not
among the sources; the fields follow the spec’s data model — name, unique
email, password, role ∈ {client, staff, admin}, and salary, required
exactly when role ∈ {staff, admin} (so absent on a plain client). -/
structure UserRec where
  uid : Nat
  name : String
  email : String
  password : String
  role : String
  salary : Option ℚ
deriving DecidableEq, Repr

/-- An order document (`models/Order` at the level the order routes use it:
an owning user reference and a status string). -/
structure Order where
  oid : Nat
  user : Nat
  totalAmount : ℚ
  status : String
deriving DecidableEq, Repr

/-! ### Responses -/

/-- The JSON body of a response, by shape: a `{msg|message}` object, an
express-validator `{errors: [{param, msg}, ...]}` array, or entity data. -/
inductive RespBody where
  | msg (s : String)
  | fieldErrors (errs : List (String × String))
  | menuJson (items : List MenuItem)
  | reservationJson (r : Reservation)
  | reservationsJson (rs : List Reservation)
  | userJson (uid : Nat) (name : String) (email : String) (role : String)
deriving DecidableEq, Repr

/-- An HTTP response: status code and JSON body. -/
structure Response where
  status : Nat
  body : RespBody
deriving DecidableEq, Repr

/-- The response of the global error-handling middleware in `server.js`,
reached when a middleware or handler throws synchronously. -/
def serverError : Response := ⟨500, .msg "Something went wrong!"⟩

/-- Run a private route `[auth, handler]`: the composition Express performs
when a route mounts the `auth` middleware before its handler.  `s0` is the
database state the request leaves untouched when `auth` answers it. -/
def runPrivate {σ : Type} (secret : String) (req : Req)
    (handler : Claims → Response × σ) (s0 : σ) : Response × σ :=
  match auth secret req with
  | .next claims => handler claims
  | .respond st m => (⟨st, .msg m⟩, s0)
  | .crash => (serverError, s0)

/-- Run a role-restricted private route `[auth, checkRole(roles), handler]`.
`checkRole` receives `some claims` because `auth` has populated `req.user`. -/
def runPrivateRole {σ : Type} (secret : String) (roles : List String) (req : Req)
    (handler : Claims → Response × σ) (s0 : σ) : Response × σ :=
  match auth secret req with
  | .respond st m => (⟨st, .msg m⟩, s0)
  | .crash => (serverError, s0)
  | .next claims =>
    match checkRole roles (some claims) with
    | .respond st m => (⟨st, .msg m⟩, s0)
    | .crash => (serverError, s0)
    | .next _ => handler claims

/-! ### A small stable sort, modelling the database’s `sort()` -/

/-- Insert `a` into `l` before the first element it compares `le` to. -/
def insertLe {α : Type} (le : α → α → Bool) (a : α) : List α → List α
  | [] => [a]
  | b :: t => if le a b then a :: b :: t else b :: insertLe le a t

/-- Insertion sort by the comparison `le`; models Mongo’s `.sort({...})`. -/
def sortLe {α : Type} (le : α → α → Bool) (l : List α) : List α :=
  l.foldr (insertLe le) []

theorem mem_insertLe {α : Type} (le : α → α → Bool) (a x : α) (l : List α) :
    x ∈ insertLe le a l ↔ x = a ∨ x ∈ l := by
  induction l with
  | nil => simp [insertLe]
  | cons b t ih =>
    simp only [insertLe]
    by_cases h : le a b = true
    · simp [h]
    · simp only [if_neg h, List.mem_cons, ih]
      tauto

theorem mem_sortLe {α : Type} (le : α → α → Bool) (x : α) (l : List α) :
    x ∈ sortLe le l ↔ x ∈ l := by
  induction l with
  | nil => simp [sortLe]
  | cons b t ih =>
    show x ∈ insertLe le b (sortLe le t) ↔ _
    rw [mem_insertLe le b x (sortLe le t), ih]
    simp

/-! ### Menu routes (`src/routes/menu.js`) -/

/-- The comparison behind `.sort({ category: 1, name: 1 })`. -/
def menuLe (a b : MenuItem) : Bool :=
  decide (a.category < b.category) ||
    (decide (a.category = b.category) && decide (a.name ≤ b.name))

/-- The list `GET /api/menu` returns: only the items with `available: true`,
sorted by category then name (`menu.js` lines 11–20). -/
def getMenuList (db : List MenuItem) : List MenuItem :=
  sortLe menuLe (db.filter (·.available))

/-- Embedding of `GET /api/menu` (public). -/
def getMenu (db : List MenuItem) : Response :=
  ⟨200, .menuJson (getMenuList db)⟩

/-- Embedding of `MenuItem.findById` as the `PUT /:id` and `DELETE /:id` handlers use it:
plain id lookup, with no `available` filter. -/
def findMenuById (db : List MenuItem) (i : Nat) : Option MenuItem :=
  db.find? (·.mid = i)

/-- The payload of `POST /api/menu` (fields absent in the JSON are `none`). -/
structure MenuPayload where
  name : Option String
  description : Option String
  price : Option ℚ
  category : Option String
  image : Option String
  available : Option Bool
deriving DecidableEq, Repr

/-- Embedding of `check(f).not().isEmpty()`: present and non-empty. -/
def presentNonEmpty (o : Option String) : Bool :=
  match o with
  | some s => !(s = "")
  | none => false

/-- The menu categories accepted by the route’s validator. -/
def menuCategories : List String := ["Entrées", "Plats", "Desserts", "Boissons"]

/-- The express-validator rules of `POST /api/menu` (lines 29–33), each rule
contributing its `(param, msg)` pair when violated; the rules accumulate
rather than short-circuit. -/
def postMenuChecks (p : MenuPayload) : List (String × String) :=
  (if presentNonEmpty p.name then [] else [("name", "Le nom est requis")]) ++
  (if presentNonEmpty p.description then [] else [("description", "La description est requise")]) ++
  (match p.price with
   | some q => if 0 ≤ q then [] else [("price", "Le prix est requis")]
   | none => [("price", "Le prix est requis")]) ++
  (match p.category with
   | some c => if menuCategories.contains c then [] else [("category", "La catégorie est requise")]
   | none => [("category", "La catégorie est requise")]) ++
  (if presentNonEmpty p.image then [] else [("image", "L’image est requise")])

/-- JavaScript truthiness of an optional string (`!req.body.name`):
falsy when absent or empty. -/
def truthyStr (o : Option String) : Bool := presentNonEmpty o

/-- JavaScript truthiness of an optional number (`!req.body.price`):
falsy when absent or zero. -/
def truthyNum (o : Option ℚ) : Bool :=
  match o with
  | some q => !(q = 0)
  | none => false

/-- The `POST /api/menu` handler body (after the middleware): the
express-validator errors give a 400, then the handler re-checks truthiness of
every field (400), then `parseFloat` positivity (400), then builds and saves
the item, defaulting `available` to `true` (lines 35–80). -/
def postMenuHandler (db : List MenuItem) (nextId : Nat) (p : MenuPayload) :
    Response × List MenuItem :=
  let errs := postMenuChecks p
  if !(errs = []) then (⟨400, .fieldErrors errs⟩, db)
  else if !(truthyStr p.name && truthyStr p.description && truthyNum p.price &&
            truthyStr p.category && truthyStr p.image) then
    (⟨400, .msg "Tous les champs sont requis"⟩, db)
  else
    match p.price with
    | none => (⟨400, .msg "Le prix doit être un nombre positif"⟩, db)
    | some q =>
      if q ≤ 0 then (⟨400, .msg "Le prix doit être un nombre positif"⟩, db)
      else
        let item : MenuItem :=
          ⟨nextId, p.name.getD "", p.description.getD "", q, p.category.getD "",
            p.image.getD "", p.available.getD true⟩
        (⟨200, .menuJson [item]⟩, db ++ [item])

/-- Embedding of `POST /api/menu`: the route `[auth, checkRole([’staff’,’admin’]), ...]`. -/
def postMenu (secret : String) (req : Req) (db : List MenuItem) (nextId : Nat)
    (p : MenuPayload) : Response × List MenuItem :=
  runPrivateRole secret ["staff", "admin"] req
    (fun _ => postMenuHandler db nextId p) db

/-- The `DELETE /api/menu/:id` handler body: find the item by id (404 when
absent); instead of removing it, set `available := false` and save
(lines 114–134 — the soft delete). -/
def deleteMenuHandler (db : List MenuItem) (i : Nat) : Response × List MenuItem :=
  match findMenuById db i with
  | none => (⟨404, .msg "Élément non trouvé"⟩, db)
  | some _ =>
    (⟨200, .msg "Élément supprimé du menu"⟩,
      db.map (fun x => if x.mid = i then { x with available := false } else x))

/-- Embedding of `DELETE /api/menu/:id`: the route `[auth, checkRole([’staff’,’admin’])]`. -/
def deleteMenu (secret : String) (req : Req) (db : List MenuItem) (i : Nat) :
    Response × List MenuItem :=
  runPrivateRole secret ["staff", "admin"] req
    (fun _ => deleteMenuHandler db i) db

/-! ### Reservation routes (`src/routes/reservations.js`) and the
reservation schema (`src/unnamed/part_000`) -/

/-- A reservation request body; every field a client may send, absent ones
`none`.  `guests` appears only in the route’s validator, not in the schema. -/
structure ReservationPayload where
  name : Option String
  email : Option String
  phone : Option String
  date : Option String
  time : Option String
  rtype : Option String
  guests : Option Int
  numberOfPeople : Option Int
  address : Option String
  specialRequests : Option String
  totalAmount : Option ℚ
  status : Option String
deriving DecidableEq, Repr

/-- A string field passes Mongoose’s `required` validator when it is present
and non-empty (`SchemaString.checkRequired`). -/
def requiredStr (o : Option String) : Bool :=
  match o with
  | some s => !(s = "")
  | none => false

/-- The status enum of the reservation schema (`part_000` lines 54–58). -/
def reservationStatusEnum : List String :=
  ["pending", "confirmed", "rejected", "delivered", "completed"]

/-- The reservation type enum of the schema. -/
def reservationTypeEnum : List String := ["surPlace", "livraison"]

/-- The status a new reservation document carries: the payload’s, or the
schema default "pending". -/
def reservationStatusOf (p : ReservationPayload) : String :=
  p.status.getD "pending"

/-- Mongoose validation run by `reservation.save()` on a new document:
`name`, `email`, `phone`, `date`, `time` required; `type` required and in
its enum; `numberOfPeople` required exactly when `type` is "surPlace";
`address` required exactly when `type` is "livraison"; `totalAmount`
required; the (defaulted) status in its enum. -/
def reservationSaveValid (p : ReservationPayload) : Bool :=
  requiredStr p.name && requiredStr p.email && requiredStr p.phone &&
  requiredStr p.date && requiredStr p.time &&
  (match p.rtype with
   | some t => reservationTypeEnum.contains t
   | none => false) &&
  (!(p.rtype = some "surPlace") || p.numberOfPeople.isSome) &&
  (!(p.rtype = some "livraison") || requiredStr p.address) &&
  p.totalAmount.isSome &&
  reservationStatusEnum.contains (reservationStatusOf p)

/-- The document `new Reservation(req.body)` builds (with the schema’s
status default applied), as stored by a successful `save()`. -/
def buildReservation (nextId : Nat) (now : Nat) (p : ReservationPayload) :
    Reservation :=
  ⟨nextId, p.name, p.email, p.phone, p.date, p.time, p.rtype,
    p.numberOfPeople, p.address, p.specialRequests, p.totalAmount,
    reservationStatusOf p, now⟩

/-- Presence of an ’@’ character approximates validator.js’s `isEmail`
shape check at the granularity these claims need. -/
def isEmailShape (o : Option String) : Bool :=
  match o with
  | some s => s.data.contains '@'
  | none => false

/-- The express-validator rules of `POST /api/reservations` (lines 12–17):
`date`, `time`, `name`, `phone` non-empty, `guests` an integer in [1,10],
`email` an email.  Note: no rule mentions `address`. -/
def postReservationChecks (p : ReservationPayload) : List (String × String) :=
  (if presentNonEmpty p.date then [] else [("date", "La date est requise")]) ++
  (if presentNonEmpty p.time then [] else [("time", "L’heure est requise")]) ++
  (match p.guests with
   | some n => if 1 ≤ n && n ≤ 10 then [] else [("guests", "Le nombre de personnes est requis")]
   | none => [("guests", "Le nombre de personnes est requis")]) ++
  (if presentNonEmpty p.name then [] else [("name", "Le nom est requis")]) ++
  (if isEmailShape p.email then [] else [("email", "Email invalide")]) ++
  (if presentNonEmpty p.phone then [] else [("phone", "Le numéro de téléphone est requis")])

/-- Embedding of `POST /api/reservations` (public, lines 11–32): a non-empty validator
error list gives 400; otherwise `save()` — a Mongoose validation failure is
caught by the generic handler and answered 500 "Erreur serveur" with nothing
persisted; a valid document is appended and echoed with 200. -/
def postReservation (store : List Reservation) (nextId : Nat) (now : Nat)
    (p : ReservationPayload) : Response × List Reservation :=
  let errs := postReservationChecks p
  if !(errs = []) then (⟨400, .fieldErrors errs⟩, store)
  else if reservationSaveValid p then
    let r := buildReservation nextId now p
    (⟨200, .reservationJson r⟩, store ++ [r])
  else (⟨500, .msg "Erreur serveur"⟩, store)

/-- Embedding of `POST /api/reservations/new` (public, lines 124–132): no
express-validator; `save()` failures are answered 400 with the Mongoose
error message, success 201 with the document. -/
def postReservationNew (store : List Reservation) (nextId : Nat) (now : Nat)
    (p : ReservationPayload) : Response × List Reservation :=
  if reservationSaveValid p then
    let r := buildReservation nextId now p
    (⟨201, .reservationJson r⟩, store ++ [r])
  else (⟨400, .msg "Reservation validation failed"⟩, store)

/-- The express-validator rule of `PUT /api/reservations/:id` (line 73):
`status` present and in `[’pending’, ’confirmed’, ’cancelled’]`. -/
def putStatusOk (p : ReservationPayload) : Bool :=
  match p.status with
  | some s => ["pending", "confirmed", "cancelled"].contains s
  | none => false

/-- Embedding of `{ $set: req.body }` on a reservation document: every field present in
the body overwrites the stored one, absent fields stay.  `findByIdAndUpdate`
is called without `runValidators`, so no schema validator runs here. -/
def applySet (r : Reservation) (p : ReservationPayload) : Reservation :=
  { r with
    name := p.name.or r.name
    email := p.email.or r.email
    phone := p.phone.or r.phone
    date := p.date.or r.date
    time := p.time.or r.time
    rtype := p.rtype.or r.rtype
    numberOfPeople := p.numberOfPeople.or r.numberOfPeople
    address := p.address.or r.address
    specialRequests := p.specialRequests.or r.specialRequests
    totalAmount := p.totalAmount.or r.totalAmount
    status := p.status.getD r.status }

/-- The `PUT /api/reservations/:id` handler body (lines 74–99): 400 when the
status rule fails, 404 when the id resolves to nothing, otherwise
`findByIdAndUpdate(id, { $set: req.body }, { new: true })`. -/
def putReservationHandler (store : List Reservation) (i : Nat)
    (p : ReservationPayload) : Response × List Reservation :=
  if !(putStatusOk p) then
    (⟨400, .fieldErrors [("status", "Le statut est requis")]⟩, store)
  else
    match store.find? (·.rid = i) with
    | none => (⟨404, .msg "Réservation non trouvée"⟩, store)
    | some r =>
      let r2 := applySet r p
      (⟨200, .reservationJson r2⟩,
        store.map (fun x => if x.rid = i then applySet x p else x))

/-- Embedding of `PUT /api/reservations/:id`: `[auth, checkRole([’staff’,’admin’]), …]`. -/
def putReservation (secret : String) (req : Req) (store : List Reservation)
    (i : Nat) (p : ReservationPayload) : Response × List Reservation :=
  runPrivateRole secret ["staff", "admin"] req
    (fun _ => putReservationHandler store i p) store

/-- Embedding of `PATCH /api/reservations/:id/status` (lines 146–161): the route mounts
`checkRole([’admin’,’staff’])` with no `auth` before it, so `checkRole`
reads the request’s own `user` field; the handler would write the body’s
`status` through `findByIdAndUpdate` with no validation at all. -/
def patchReservationStatus (req : Req) (store : List Reservation) (i : Nat)
    (newStatus : Option String) : Response × List Reservation :=
  match checkRole ["admin", "staff"] req.user with
  | .crash => (serverError, store)
  | .respond st m => (⟨st, .msg m⟩, store)
  | .next _ =>
    match store.find? (·.rid = i) with
    | none => (⟨404, .msg "Réservation non trouvée"⟩, store)
    | some r =>
      match newStatus with
      | none => (⟨200, .reservationJson r⟩, store)
      | some s =>
        (⟨200, .reservationJson { r with status := s }⟩,
          store.map (fun x => if x.rid = i then { x with status := s } else x))

/-- Accumulator for the decimal reading of a digit string. -/
def digitsAux : List Char → Nat → Option Nat
  | [], acc => some acc
  | c :: t, acc =>
    if c.isDigit then digitsAux t (acc * 10 + (c.toNat - 48)) else none

/-- Mongoose casts the `:id` path parameter before `findById` runs; a
segment that is not a valid id — such as the literal path "all" — makes the
cast throw (`err.kind === ’ObjectId’`).  Ids are numerals in this
embedding, so the cast succeeds exactly on non-empty digit strings. -/
def castObjectId (s : String) : Option Nat :=
  match s.data with
  | [] => none
  | l => digitsAux l 0

/-- The `GET /api/reservations/:id` handler body (lines 52–64): a failing
id cast throws, caught and answered 404 (`err.kind === ’ObjectId’`); an id
that resolves to nothing is 404; otherwise the document is returned. -/
def getReservationByIdHandler (store : List Reservation) (rawId : String) :
    Response :=
  match castObjectId rawId with
  | none => ⟨404, .msg "Réservation non trouvée"⟩
  | some i =>
    match store.find? (·.rid = i) with
    | none => ⟨404, .msg "Réservation non trouvée"⟩
    | some r => ⟨200, .reservationJson r⟩

/-- Embedding of `GET /api/reservations/:id` (line 51): the route
`[auth, checkRole([staff, admin])]` before the lookup handler. -/
def getReservationById (secret : String) (req : Req)
    (store : List Reservation) (rawId : String) : Response :=
  (runPrivateRole secret ["staff", "admin"] req
    (fun _ => (getReservationByIdHandler store rawId, store)) store).1

/-- What a `GET /api/reservations/all` request actually runs: Express tries
the router’s layers in registration order, and the `GET /:id` route of line
51 matches the single segment "all" before the `GET /all` route of line 135
is ever considered — so the request is handled by the `/:id` pipeline with
`req.params.id = "all"`, and the line-135 `checkRole`-only handler is
unreachable. -/
def getReservationsAllResponse (secret : String) (req : Req)
    (store : List Reservation) : Response :=
  getReservationById secret req store "all"

/-! ### Auth routes (`src/routes` auth part: register) -/

/-- The request body of `POST /api/auth/register`. -/
structure RegisterPayload where
  name : Option String
  email : Option String
  password : Option String
  role : Option String
deriving DecidableEq, Repr

/-- The express-validator rules of `POST /api/auth/register` (lines
204–207): `name` non-empty, `email` an email, `password` at least 6
characters. -/
def registerChecks (p : RegisterPayload) : List (String × String) :=
  (if presentNonEmpty p.name then [] else [("name", "Le nom est requis")]) ++
  (if isEmailShape p.email then [] else [("email", "Veuillez inclure un email valide")]) ++
  (match p.password with
   | some s => if 6 ≤ s.length then [] else [("password", "Le mot de passe doit contenir au moins 6 caractères")]
   | none => [("password", "Le mot de passe doit contenir au moins 6 caractères")])

/-- Modelled from the spec: `src/models/User.js` is not among the sources;
per the spec’s data model, the user schema’s `save()` validation accepts
role ∈ {client, staff, admin} and requires `salary` exactly when
role ∈ {staff, admin}. -/
def userSaveValid (role : String) (salary : Option ℚ) : Bool :=
  (["client", "staff", "admin"] : List String).contains role &&
  (!((["staff", "admin"] : List String).contains role) || salary.isSome)

/-- Embedding of `POST /api/auth/register` (public, lines 204–260):
validator errors give 400; an existing user with the same email gives 400;
otherwise the new user is saved with `role = req.body.role`, destructured
with default "client" (`const { name, email, password, role = ’client’ } =
req.body`) — the route itself imposes no restriction on the claimed role,
and never passes a salary, so the stored document’s salary is absent.  A
document failing the schema’s `save()` validation makes the `catch` answer
500 with nothing stored. -/
def register (db : List UserRec) (nextId : Nat) (p : RegisterPayload) :
    Response × List UserRec :=
  let errs := registerChecks p
  if !(errs = []) then (⟨400, .fieldErrors errs⟩, db)
  else
    let role := p.role.getD "client"
    match db.find? (fun u => some u.email = p.email) with
    | some _ => (⟨400, .msg "Cet utilisateur existe déjà"⟩, db)
    | none =>
      if userSaveValid role none then
        let u : UserRec :=
          ⟨nextId, p.name.getD "", p.email.getD "", p.password.getD "", role, none⟩
        (⟨200, .userJson u.uid u.name u.email u.role⟩, db ++ [u])
      else (⟨500, .msg "Erreur serveur"⟩, db)

/-! ### Order routes (`src/routes/orders.js`) -/

/-- The `DELETE /api/orders/:id` handler body (lines 130–155): 404 when the
id resolves to nothing; 403 when the actor is a client and not the order’s
owner; otherwise — with no check of the order’s current status — set
`status := ’cancelled’` and save; the record is never removed. -/
def deleteOrderHandler (db : List Order) (actor : Claims) (i : Nat) :
    Response × List Order :=
  match db.find? (·.oid = i) with
  | none => (⟨404, .msg "Commande non trouvée"⟩, db)
  | some o =>
    if actor.role = "client" && !(o.user = actor.id) then
      (⟨403, .msg "Non autorisé"⟩, db)
    else
      (⟨200, .msg "Commande annulée"⟩,
        db.map (fun x => if x.oid = i then { x with status := "cancelled" } else x))

/-- Embedding of `DELETE /api/orders/:id`: the route `[auth, handler]`. -/
def deleteOrder (secret : String) (req : Req) (db : List Order) (i : Nat) :
    Response × List Order :=
  runPrivate secret req (fun claims => deleteOrderHandler db claims i) db

/-! ### Admin routes (`src/routes/admin.js`) -/

/-- Embedding of `calculateChange` (lines 115–118): `if (!previous) return 0` — the JS
falsiness of the number 0 — else `((current - previous) / previous) * 100`. -/
def calculateChange (current previous : ℚ) : ℚ :=
  if previous = 0 then 0 else ((current - previous) / previous) * 100

/-- The role values `PUT /api/admin/users/:userId/role` accepts (line 225). -/
def adminAssignableRoles : List String := ["client", "staff", "admin"]

/-- The `PUT /api/admin/users/:userId/role` handler body (lines 220–245):
`![’client’,’staff’,’admin’].includes(role)` gives 400 "Rôle invalide"
before any user lookup (an absent body role is `includes(undefined)`,
false); then 404 when the target id resolves to nothing; then 400 when the
target is the acting user themselves and the requested role is not "admin";
otherwise the stored role is overwritten. -/
def updateUserRoleHandler (db : List UserRec) (actor : Claims) (userId : Nat)
    (roleBody : Option String) : Response × List UserRec :=
  match roleBody with
  | none => (⟨400, .msg "Rôle invalide"⟩, db)
  | some role =>
    if !(adminAssignableRoles.contains role) then
      (⟨400, .msg "Rôle invalide"⟩, db)
    else
      match db.find? (·.uid = userId) with
      | none => (⟨404, .msg "Utilisateur non trouvé"⟩, db)
      | some u =>
        if u.uid = actor.id && !(role = "admin") then
          (⟨400, .msg "Vous ne pouvez pas modifier votre propre rôle"⟩, db)
        else
          (⟨200, .msg "Rôle mis à jour avec succès"⟩,
            db.map (fun x => if x.uid = userId then { x with role := role } else x))

/-- The `isAdmin` middleware of `admin.js` (lines 10–20): looks the acting
user up in the store and forbids non-admins; `User.findById` yielding `null`
makes `user.role` throw inside the middleware’s own try/catch, answered 500
"Erreur serveur". -/
def isAdminMW (db : List UserRec) (claims : Claims) : MWResult Unit :=
  match db.find? (·.uid = claims.id) with
  | none => .respond 500 "Erreur serveur"
  | some u =>
    if !(u.role = "admin") then
      .respond 403 "Accès refusé. Seuls les administrateurs peuvent effectuer cette action."
    else .next ()

/-- Embedding of `PUT /api/admin/users/:userId/role`: the route `[auth, isAdmin, …]`. -/
def putUserRole (secret : String) (req : Req) (db : List UserRec)
    (userId : Nat) (roleBody : Option String) : Response × List UserRec :=
  match auth secret req with
  | .respond st m => (⟨st, .msg m⟩, db)
  | .crash => (serverError, db)
  | .next claims =>
    match isAdminMW db claims with
    | .respond st m => (⟨st, .msg m⟩, db)
    | .crash => (serverError, db)
    | .next _ => updateUserRoleHandler db claims userId roleBody

/-! ## Claims -/

/-- C8: for window totals with previous = 0 the percentage-change
computation of `GET /api/admin/stats` returns 0 rather than an arithmetic
fault, and for previous ≠ 0 it returns `((current - previous) / previous) *
100`. -/
theorem calculateChange_div_by_zero_convention (current previous : ℚ) :
    (previous = 0 → calculateChange current previous = 0) ∧
    (previous ≠ 0 →
      calculateChange current previous = ((current - previous) / previous) * 100) := by
  constructor <;> intro h <;> simp [calculateChange, h]

/-- Witness for C8 at previous = 0, current = 5 and at a non-zero previous. -/
theorem calculateChange_div_by_zero_convention_witness :
    calculateChange 5 0 = 0 ∧ calculateChange 3 2 = ((3 - 2) / 2) * 100 :=
  ⟨(calculateChange_div_by_zero_convention 5 0).1 rfl,
   (calculateChange_div_by_zero_convention 3 2).2 (by norm_num)⟩

/-- C2: on a private route, a request with no `x-auth-token` header is
answered 401 and the handler never runs (the result is the same for every
handler, and the state is untouched); a request whose token fails
verification is also answered 401; and verification fails for a bad
signature, an elapsed expiry, and a malformed token. -/
theorem auth_rejects_before_handler (secret : String) (req : Req) :
    (req.xAuthToken = none →
      ∀ (σ : Type) (handler : Claims → Response × σ) (s0 : σ),
        runPrivate secret req handler s0 =
          (⟨401, .msg "Pas de token, autorisation refusée"⟩, s0)) ∧
    (∀ t, req.xAuthToken = some t → jwtVerify t secret = none →
      ∀ (σ : Type) (handler : Claims → Response × σ) (s0 : σ),
        runPrivate secret req handler s0 = (⟨401, .msg "Token non valide"⟩, s0)) ∧
    (∀ s c, ¬ s = secret → jwtVerify (.signed s c false) secret = none) ∧
    (∀ s c, jwtVerify (.signed s c true) secret = none) ∧
    (∀ raw, jwtVerify (.malformed raw) secret = none) := by
  refine ⟨?_, ?_, ?_, ?_, ?_⟩
  · intro h σ handler s0
    simp [runPrivate, auth, h]
  · intro t ht hv σ handler s0
    simp [runPrivate, auth, ht, hv]
  · intro s c hs
    simp [jwtVerify, hs]
  · intro s c
    simp [jwtVerify]
  · intro raw
    rfl

/-- Witness for C2: a tokenless request and a malformed-token request to a
concrete private route are both answered 401 with the state untouched. -/
theorem auth_rejects_before_handler_witness :
    runPrivate "k" (mkReq none) (fun _ => (⟨200, .msg "ok"⟩, (1 : Nat))) 0 =
      (⟨401, .msg "Pas de token, autorisation refusée"⟩, 0) ∧
    runPrivate "k" (mkReq (some (.malformed "zzz")))
        (fun _ => (⟨200, .msg "ok"⟩, (1 : Nat))) 0 =
      (⟨401, .msg "Token non valide"⟩, 0) :=
  ⟨(auth_rejects_before_handler "k" (mkReq none)).1 rfl Nat _ 0,
   (auth_rejects_before_handler "k" (mkReq (some (.malformed "zzz")))).2.1
     (.malformed "zzz") rfl rfl Nat _ 0⟩

/-- C1: on `POST /api/menu`, an authenticated user whose role is outside
`[’staff’, ’admin’]` is answered 403 with the store untouched, for every
payload (valid or not); a user whose role is in the set passes the gate
unchanged — the route behaves exactly as its handler on the same inputs. -/
theorem menu_role_gate (secret : String) (req : Req) (claims : Claims)
    (db : List MenuItem) (nextId : Nat) (p : MenuPayload)
    (hauth : auth secret req = .next claims) :
    (claims.role ∉ (["staff", "admin"] : List String) →
      postMenu secret req db nextId p =
        (⟨403, .msg "Accès refusé - Vous n’avez pas les permissions nécessaires"⟩, db)) ∧
    (claims.role ∈ (["staff", "admin"] : List String) →
      postMenu secret req db nextId p = postMenuHandler db nextId p) := by
  constructor <;> intro h <;> simp at h <;>
    simp [postMenu, runPrivateRole, hauth, checkRole, h]

/-- Witness for C1: with the shared secret "k", a client-role token gets 403
on `POST /api/menu` even with a fully valid payload, and a staff-role token
reaches the handler. -/
theorem menu_role_gate_witness :
    postMenu "k" (mkReq (some (.signed "k" ⟨7, "client"⟩ false))) [] 1
        ⟨some "Tarte", some "Aux pommes", some 5, some "Desserts", some "img", none⟩ =
      (⟨403, .msg "Accès refusé - Vous n’avez pas les permissions nécessaires"⟩, []) ∧
    postMenu "k" (mkReq (some (.signed "k" ⟨8, "staff"⟩ false))) [] 1
        ⟨some "Tarte", some "Aux pommes", some 5, some "Desserts", some "img", none⟩ =
      postMenuHandler [] 1
        ⟨some "Tarte", some "Aux pommes", some 5, some "Desserts", some "img", none⟩ :=
  ⟨(menu_role_gate "k" (mkReq (some (.signed "k" ⟨7, "client"⟩ false))) ⟨7, "client"⟩
      [] 1 ⟨some "Tarte", some "Aux pommes", some 5, some "Desserts", some "img", none⟩
      (by decide)).1 (by decide),
   (menu_role_gate "k" (mkReq (some (.signed "k" ⟨8, "staff"⟩ false))) ⟨8, "staff"⟩
      [] 1 ⟨some "Tarte", some "Aux pommes", some 5, some "Desserts", some "img", none⟩
      (by decide)).2 (by decide)⟩

/-- C3 counterexample: a `POST /api/reservations` payload with
`type=livraison` and no `address` that passes every express-validator rule
of the route (none of which mentions `address`) is answered 500 "Erreur
serveur" — not 400, and no field error names `address` — with nothing
persisted.  The claimed 400 naming `address` does not happen. -/
theorem reservation_livraison_500_counterexample :
    (postReservation [] 1 0
      ⟨some "Ali", some "a@b.c", some "0655", some "2025-01-01", some "19:00",
        some "livraison", some 2, none, none, none, some 30, none⟩).1 =
      ⟨500, .msg "Erreur serveur"⟩ ∧
    ¬ (postReservation [] 1 0
      ⟨some "Ali", some "a@b.c", some "0655", some "2025-01-01", some "19:00",
        some "livraison", some 2, none, none, none, some 30, none⟩).1.status = 400 ∧
    (postReservation [] 1 0
      ⟨some "Ali", some "a@b.c", some "0655", some "2025-01-01", some "19:00",
        some "livraison", some 2, none, none, none, some 30, none⟩).2 = [] := by
  decide

/-- C3 amended: every `POST /api/reservations` payload with
`type=livraison` and no `address` that passes the route’s express-validator
rules (which do not cover `address`) is answered 500 "Erreur serveur" — the
Mongoose required-`address` failure is caught generically — and no
reservation is persisted. -/
theorem reservation_livraison_amended (store : List Reservation)
    (nextId now : Nat) (p : ReservationPayload)
    (hchecks : postReservationChecks p = [])
    (htype : p.rtype = some "livraison")
    (haddr : p.address = none) :
    postReservation store nextId now p = (⟨500, .msg "Erreur serveur"⟩, store) := by
  have hvalid : reservationSaveValid p = false := by
    simp [reservationSaveValid, htype, haddr, requiredStr]
  simp [postReservation, hchecks, hvalid]

/-- Witness for C3 amended at the counterexample’s payload. -/
theorem reservation_livraison_amended_witness :
    postReservation [] 1 0
      ⟨some "Ali", some "a@b.c", some "0655", some "2025-01-01", some "19:00",
        some "livraison", some 2, none, none, none, some 30, none⟩ =
      (⟨500, .msg "Erreur serveur"⟩, []) :=
  reservation_livraison_amended [] 1 0
    ⟨some "Ali", some "a@b.c", some "0655", some "2025-01-01", some "19:00",
      some "livraison", some 2, none, none, none, some 30, none⟩
    (by decide) rfl rfl

/-- C4 counterexample: an unauthenticated registration claiming role
"admin" does not create a user — the route passes no salary, the
spec-modelled user schema requires one for staff/admin, so `save()` fails
and the request is answered 500 with nothing stored.  The claim that such
an input creates an admin/staff user is false. -/
theorem register_admin_role_counterexample :
    register [] 1 ⟨some "Eve", some "eve@x.io", some "motdepasse", some "admin"⟩ =
      (⟨500, .msg "Erreur serveur"⟩, []) := by
  decide

/-- C4 amended: `POST /api/auth/register` is public and takes the role
directly from the body with no route-level restriction, defaulting to
"client" only when the payload omits it; a registration claiming "client"
(or omitting the role) stores that user, but one claiming "staff" or
"admin" — for which the route never passes the salary the spec-modelled
schema requires — fails `save()` and is answered 500 with no user created. -/
theorem register_role_from_body_amended (db : List UserRec) (nextId : Nat)
    (p : RegisterPayload)
    (hv : registerChecks p = [])
    (hfresh : db.find? (fun u => some u.email = p.email) = none) :
    ((p.role = some "client" ∨ p.role = none) →
      register db nextId p =
        (⟨200, .userJson nextId (p.name.getD "") (p.email.getD "") "client"⟩,
          db ++ [⟨nextId, p.name.getD "", p.email.getD "", p.password.getD "",
            "client", none⟩])) ∧
    (∀ r, p.role = some r → r ∈ (["staff", "admin"] : List String) →
      register db nextId p = (⟨500, .msg "Erreur serveur"⟩, db)) := by
  constructor
  · intro hr
    rcases hr with hr | hr <;> simp [register, hv, hfresh, hr, userSaveValid]
  · intro r hr hmem
    have hbad : userSaveValid r none = false := by
      simp at hmem
      rcases hmem with h | h <;> simp [userSaveValid, h]
    simp [register, hv, hfresh, hr, hbad]

/-- Witness for C4 amended: a claimed "client" role is stored, a claimed
"staff" role is answered 500 with nothing stored. -/
theorem register_role_from_body_amended_witness :
    register [] 1 ⟨some "Bob", some "bob@x.io", some "motdepasse", some "client"⟩ =
      (⟨200, .userJson 1 "Bob" "bob@x.io" "client"⟩,
        [⟨1, "Bob", "bob@x.io", "motdepasse", "client", none⟩]) ∧
    register [] 1 ⟨some "Zoe", some "zoe@x.io", some "motdepasse", some "staff"⟩ =
      (⟨500, .msg "Erreur serveur"⟩, []) :=
  ⟨(register_role_from_body_amended [] 1
      ⟨some "Bob", some "bob@x.io", some "motdepasse", some "client"⟩
      (by decide) rfl).1 (Or.inl rfl),
   (register_role_from_body_amended [] 1
      ⟨some "Zoe", some "zoe@x.io", some "motdepasse", some "staff"⟩
      (by decide) rfl).2 "staff" rfl (by decide)⟩

/-- C5: after the soft delete of `DELETE /api/menu/:id` on an existing item
(the handler flips `available` to `false` instead of removing the row), the
item is excluded from the list `GET /api/menu` returns, yet a direct
`findById` lookup on the menu collection still resolves the id. -/
theorem menu_soft_delete_excluded_but_resolvable
    (db : List MenuItem) (i : Nat) (m : MenuItem)
    (hfind : findMenuById db i = some m) :
    (deleteMenuHandler db i).1 = ⟨200, .msg "Élément supprimé du menu"⟩ ∧
    (∀ x ∈ getMenuList (deleteMenuHandler db i).2, ¬ x.mid = i) ∧
    (findMenuById (deleteMenuHandler db i).2 i).isSome = true := by
  have hdel : deleteMenuHandler db i =
      (⟨200, .msg "Élément supprimé du menu"⟩,
        db.map (fun x => if x.mid = i then { x with available := false } else x)) := by
    simp [deleteMenuHandler, hfind]
  refine ⟨by rw [hdel], ?_, ?_⟩
  · intro x hx hxi
    rw [hdel] at hx
    simp only [getMenuList] at hx
    rw [mem_sortLe] at hx
    rw [List.mem_filter] at hx
    obtain ⟨hx1, hav⟩ := hx
    rw [List.mem_map] at hx1
    obtain ⟨y, hy, hxy⟩ := hx1
    by_cases hym : y.mid = i
    · rw [if_pos hym] at hxy
      rw [← hxy] at hav
      simp at hav
    · rw [if_neg hym] at hxy
      rw [← hxy] at hxi
      exact hym hxi
  · rw [hdel]
    have hm : m ∈ db := List.mem_of_find?_eq_some hfind
    have hmi : m.mid = i := by
      have := List.find?_some hfind
      simpa using this
    simp only [findMenuById]
    rw [List.find?_isSome]
    refine ⟨{ m with available := false }, ?_, by simp [hmi]⟩
    exact List.mem_map.mpr ⟨m, hm, by rw [if_pos hmi]⟩

/-- Witness for C5 on a one-item store: the deleted item leaves the public
menu list but its id still resolves. -/
theorem menu_soft_delete_excluded_but_resolvable_witness :
    (deleteMenuHandler [⟨1, "Tarte", "d", 5, "Desserts", "img", true⟩] 1).1 =
      ⟨200, .msg "Élément supprimé du menu"⟩ ∧
    (∀ x ∈ getMenuList
        (deleteMenuHandler [⟨1, "Tarte", "d", 5, "Desserts", "img", true⟩] 1).2,
      ¬ x.mid = 1) ∧
    (findMenuById
        (deleteMenuHandler [⟨1, "Tarte", "d", 5, "Desserts", "img", true⟩] 1).2
        1).isSome = true :=
  menu_soft_delete_excluded_but_resolvable
    [⟨1, "Tarte", "d", 5, "Desserts", "img", true⟩] 1
    ⟨1, "Tarte", "d", 5, "Desserts", "img", true⟩ (by decide)

/-- C6 counterexample: a client deleting their own order whose status is
"delivered" — not "pending" — succeeds anyway: `DELETE /api/orders/:id`
checks ownership but never the current status, and cancels the order. -/
theorem order_client_cancel_any_status_counterexample :
    deleteOrderHandler [⟨1, 7, 20, "delivered"⟩] ⟨7, "client"⟩ 1 =
      (⟨200, .msg "Commande annulée"⟩, [⟨1, 7, 20, "cancelled"⟩]) ∧
    ¬ ("delivered" : String) = "pending" := by
  decide

/-- C6 amended: a client’s `DELETE /api/orders/:id` on an existing order is
403 with the store untouched when the order is not theirs, and succeeds on
their own order regardless of its current status; on success the order’s
status becomes "cancelled" and the record is not removed. -/
theorem order_client_cancel_amended
    (db : List Order) (actor : Claims) (i : Nat) (o : Order)
    (hrole : actor.role = "client")
    (hfind : db.find? (·.oid = i) = some o) :
    (¬ o.user = actor.id →
      deleteOrderHandler db actor i = (⟨403, .msg "Non autorisé"⟩, db)) ∧
    (o.user = actor.id →
      (deleteOrderHandler db actor i).1 = ⟨200, .msg "Commande annulée"⟩ ∧
      ((deleteOrderHandler db actor i).2).length = db.length ∧
      ∀ x ∈ (deleteOrderHandler db actor i).2, x.oid = i → x.status = "cancelled") := by
  constructor
  · intro hne
    simp [deleteOrderHandler, hfind, hrole, hne]
  · intro heq
    have hdel : deleteOrderHandler db actor i =
        (⟨200, .msg "Commande annulée"⟩,
          db.map (fun x => if x.oid = i then { x with status := "cancelled" } else x)) := by
      simp [deleteOrderHandler, hfind, hrole, heq]
    refine ⟨by rw [hdel], by rw [hdel]; simp, ?_⟩
    intro x hx hxi
    rw [hdel] at hx
    simp only [List.mem_map] at hx
    obtain ⟨y, hy, hxy⟩ := hx
    by_cases hyi : y.oid = i
    · rw [if_pos hyi] at hxy
      rw [← hxy]
    · rw [if_neg hyi] at hxy
      rw [← hxy] at hxi
      exact absurd hxi hyi

/-- Witness for C6 amended: 403 on someone else’s order; cancellation of an
own order that is in status "preparing". -/
theorem order_client_cancel_amended_witness :
    deleteOrderHandler [⟨1, 9, 20, "pending"⟩] ⟨7, "client"⟩ 1 =
      (⟨403, .msg "Non autorisé"⟩, [⟨1, 9, 20, "pending"⟩]) ∧
    (deleteOrderHandler [⟨1, 7, 20, "preparing"⟩] ⟨7, "client"⟩ 1).1 =
      ⟨200, .msg "Commande annulée"⟩ :=
  ⟨(order_client_cancel_amended [⟨1, 9, 20, "pending"⟩] ⟨7, "client"⟩ 1
      ⟨1, 9, 20, "pending"⟩ rfl (by decide)).1 (by decide),
   ((order_client_cancel_amended [⟨1, 7, 20, "preparing"⟩] ⟨7, "client"⟩ 1
      ⟨1, 7, 20, "preparing"⟩ rfl (by decide)).2 rfl).1⟩

/-- C9 counterexample: the claim that no `GET /api/reservations/all`
request is answered with the designed 401/403 is false — the request is
captured by the earlier `GET /:id` route, whose `auth` answers a tokenless
request 401 and whose role gate answers a client token 403. -/
theorem reservations_all_shadowed_counterexample :
    getReservationsAllResponse "k" (mkReq none) [] =
      ⟨401, .msg "Pas de token, autorisation refusée"⟩ ∧
    getReservationsAllResponse "k"
        (mkReq (some (.signed "k" ⟨7, "client"⟩ false))) [] =
      ⟨403, .msg "Accès refusé - Vous n’avez pas les permissions nécessaires"⟩ := by
  decide

/-- C9 amended: the role gate does read `req.user.role` with no check, so
`PATCH /api/reservations/:id/status` — which mounts the gate without
`auth` — answers every request, with or without a valid token, 500 (never
the designed 401/403, never data) and leaves the store unchanged; but
`GET /api/reservations/all` is shadowed by the earlier `GET /:id` route
(`auth` + role gate, with `req.params.id = "all"`), so those requests get
the designed 401 without a token, the designed 403 for a disallowed role,
and 404 for staff/admin (the segment "all" fails the id cast) — never the
gate’s crash. -/
theorem reservations_unguarded_gate_amended :
    (∀ tok store i s,
      patchReservationStatus (mkReq tok) store i s = (serverError, store)) ∧
    (serverError.status = 500 ∧
      ¬ serverError.status = 401 ∧ ¬ serverError.status = 403) ∧
    (∀ (secret : String) store,
      getReservationsAllResponse secret (mkReq none) store =
        ⟨401, .msg "Pas de token, autorisation refusée"⟩) ∧
    (∀ secret req claims store, auth secret req = .next claims →
      (claims.role ∉ (["staff", "admin"] : List String) →
        getReservationsAllResponse secret req store =
          ⟨403, .msg "Accès refusé - Vous n’avez pas les permissions nécessaires"⟩) ∧
      (claims.role ∈ (["staff", "admin"] : List String) →
        getReservationsAllResponse secret req store =
          ⟨404, .msg "Réservation non trouvée"⟩)) := by
  refine ⟨fun tok store i s => rfl, ⟨rfl, by decide, by decide⟩, ?_, ?_⟩
  · intro secret store
    rfl
  · intro secret req claims store hauth
    have hcast : castObjectId "all" = none := by decide
    constructor <;> intro h <;> simp at h <;>
      simp [getReservationsAllResponse, getReservationById, runPrivateRole,
        hauth, checkRole, h, getReservationByIdHandler, hcast]

/-- Witness for C9 amended: a concrete `PATCH` request gets 500 with the
store untouched, while concrete client- and staff-token requests to
`GET /api/reservations/all` get the designed 403 and a 404. -/
theorem reservations_unguarded_gate_amended_witness :
    patchReservationStatus (mkReq none) [] 2 none = (serverError, []) ∧
    getReservationsAllResponse "k"
        (mkReq (some (.signed "k" ⟨7, "client"⟩ false))) [] =
      ⟨403, .msg "Accès refusé - Vous n’avez pas les permissions nécessaires"⟩ ∧
    getReservationsAllResponse "k"
        (mkReq (some (.signed "k" ⟨8, "staff"⟩ false))) [] =
      ⟨404, .msg "Réservation non trouvée"⟩ :=
  ⟨reservations_unguarded_gate_amended.1 none [] 2 none,
   (reservations_unguarded_gate_amended.2.2.2 "k"
      (mkReq (some (.signed "k" ⟨7, "client"⟩ false))) ⟨7, "client"⟩ []
      (by decide)).1 (by decide),
   (reservations_unguarded_gate_amended.2.2.2 "k"
      (mkReq (some (.signed "k" ⟨8, "staff"⟩ false))) ⟨8, "staff"⟩ []
      (by decide)).2 (by decide)⟩

/-- C10: on `PUT /api/admin/users/:userId/role` with an authenticated admin
actor, a requested role outside `{client, staff, admin}` is answered 400
"Rôle invalide" with the store untouched for every target id — before any
target lookup; and a request whose target resolves to the acting admin
themselves with a requested role other than "admin" is answered 400 with
the stored role unchanged. -/
theorem admin_role_update_guards
    (secret : String) (req : Req) (db : List UserRec) (claims : Claims)
    (actorRec : UserRec)
    (hauth : auth secret req = .next claims)
    (hactor : db.find? (·.uid = claims.id) = some actorRec)
    (hadmin : actorRec.role = "admin") :
    (∀ r, r ∉ adminAssignableRoles → ∀ userId,
      putUserRole secret req db userId (some r) = (⟨400, .msg "Rôle invalide"⟩, db)) ∧
    (∀ userId target r, db.find? (·.uid = userId) = some target →
      target.uid = claims.id → r ∈ adminAssignableRoles → ¬ r = "admin" →
      putUserRole secret req db userId (some r) =
        (⟨400, .msg "Vous ne pouvez pas modifier votre propre rôle"⟩, db)) := by
  have hmw : isAdminMW db claims = .next () := by
    simp [isAdminMW, hactor, hadmin]
  constructor
  · intro r hr userId
    simp [adminAssignableRoles] at hr
    simp [putUserRole, hauth, hmw, updateUserRoleHandler, adminAssignableRoles, hr]
  · intro userId target r hfindT htarget hmem hne
    simp [adminAssignableRoles] at hmem
    rcases hmem with h | h | h
    · subst h
      simp [putUserRole, hauth, hmw, updateUserRoleHandler, adminAssignableRoles,
        hfindT, htarget]
    · subst h
      simp [putUserRole, hauth, hmw, updateUserRoleHandler, adminAssignableRoles,
        hfindT, htarget]
    · exact absurd h hne

/-- Witness for C10: a concrete admin rejecting a bogus role for an absent
target id, and rejecting the demotion of their own account. -/
theorem admin_role_update_guards_witness :
    putUserRole "k" (mkReq (some (.signed "k" ⟨1, "admin"⟩ false)))
        [⟨1, "Root", "r@x.io", "motdepasse", "admin", some 1000⟩] 99 (some "superuser") =
      (⟨400, .msg "Rôle invalide"⟩, [⟨1, "Root", "r@x.io", "motdepasse", "admin", some 1000⟩]) ∧
    putUserRole "k" (mkReq (some (.signed "k" ⟨1, "admin"⟩ false)))
        [⟨1, "Root", "r@x.io", "motdepasse", "admin", some 1000⟩] 1 (some "client") =
      (⟨400, .msg "Vous ne pouvez pas modifier votre propre rôle"⟩,
        [⟨1, "Root", "r@x.io", "motdepasse", "admin", some 1000⟩]) :=
  ⟨(admin_role_update_guards "k" (mkReq (some (.signed "k" ⟨1, "admin"⟩ false)))
      [⟨1, "Root", "r@x.io", "motdepasse", "admin", some 1000⟩] ⟨1, "admin"⟩
      ⟨1, "Root", "r@x.io", "motdepasse", "admin", some 1000⟩ (by decide) (by decide) rfl).1
      "superuser" (by decide) 99,
   (admin_role_update_guards "k" (mkReq (some (.signed "k" ⟨1, "admin"⟩ false)))
      [⟨1, "Root", "r@x.io", "motdepasse", "admin", some 1000⟩] ⟨1, "admin"⟩
      ⟨1, "Root", "r@x.io", "motdepasse", "admin", some 1000⟩ (by decide) (by decide) rfl).2
      1 ⟨1, "Root", "r@x.io", "motdepasse", "admin", some 1000⟩ "client" (by decide) rfl
      (by decide) (by decide)⟩

/-- Every reservation in the store has a status inside the schema enum
`{pending, confirmed, rejected, delivered, completed}`. -/
def ReservationStatusWF (store : List Reservation) : Prop :=
  ∀ r ∈ store, r.status ∈ reservationStatusEnum

theorem runPrivateRole_cases {σ : Type} (secret : String) (roles : List String)
    (req : Req) (handler : Claims → Response × σ) (s0 : σ) :
    (runPrivateRole secret roles req handler s0).2 = s0 ∨
    ∃ c, runPrivateRole secret roles req handler s0 = handler c := by
  unfold runPrivateRole
  cases auth secret req with
  | respond st m => exact Or.inl (by simp)
  | crash => exact Or.inl (by simp)
  | next c =>
    cases hC : checkRole roles (some c) with
    | respond st m => exact Or.inl (by simp [hC])
    | crash => exact Or.inl (by simp [hC])
    | next u => exact Or.inr ⟨c, by simp [hC]⟩

theorem saveValid_status_mem (p : ReservationPayload)
    (h : reservationSaveValid p = true) :
    reservationStatusOf p ∈ reservationStatusEnum := by
  simp only [reservationSaveValid, Bool.and_eq_true] at h
  have hc := h.2
  simp [reservationStatusEnum] at hc ⊢
  exact hc

/-- C7 counterexample: a staff `PUT /api/reservations/:id` with
`status=’cancelled’` — a value the route’s validator accepts — is written to
the stored reservation although "cancelled" is outside the schema’s status
enum, because `findByIdAndUpdate` runs no schema validators. -/
theorem reservation_status_enum_counterexample :
    ((putReservation "k" (mkReq (some (.signed "k" ⟨2, "staff"⟩ false)))
        [⟨1, some "A", some "a@b.c", some "1", some "d", some "t", some "surPlace",
          some 2, none, none, some 10, "pending", 0⟩] 1
        ⟨none, none, none, none, none, none, none, none, none, none, none,
          some "cancelled"⟩).2.map (·.status)) = ["cancelled"] ∧
    reservationStatusEnum.contains "cancelled" = false := by
  decide

/-- C7 amended: `POST /api/reservations` and `POST /api/reservations/new`
preserve the schema enum on every stored status (a `save()` outside the enum
is rejected); after `PUT /api/reservations/:id` every stored status is in
the schema enum or is "cancelled" — the one extra value the route’s
validator admits while the update bypasses schema validation; and
`PATCH /api/reservations/:id/status` never changes any status because every
request to it is answered 500 (its role gate crashes on the unpopulated
`req.user`). -/
theorem reservation_status_enum_amended :
    (∀ store nextId now p, ReservationStatusWF store →
      ReservationStatusWF (postReservation store nextId now p).2) ∧
    (∀ store nextId now p, ReservationStatusWF store →
      ReservationStatusWF (postReservationNew store nextId now p).2) ∧
    (∀ secret req store i p, ReservationStatusWF store →
      ∀ r ∈ (putReservation secret req store i p).2,
        r.status ∈ reservationStatusEnum ∨ r.status = "cancelled") ∧
    (∀ tok store i s,
      patchReservationStatus (mkReq tok) store i s = (serverError, store)) := by
  have hbuild : ∀ store nextId now p, reservationSaveValid p = true →
      ∀ r ∈ store ++ [buildReservation nextId now p],
        r.status ∈ reservationStatusEnum ∨ r ∈ store := by
    intro store nextId now p hv r hr
    rcases List.mem_append.mp hr with h1 | h1
    · exact Or.inr h1
    · left
      simp at h1
      rw [h1]
      exact saveValid_status_mem p hv
  refine ⟨?_, ?_, ?_, ?_⟩
  · intro store nextId now p h
    by_cases hc : postReservationChecks p = []
    · by_cases hv : reservationSaveValid p = true
      · have h2 : (postReservation store nextId now p).2 =
            store ++ [buildReservation nextId now p] := by
          simp [postReservation, hc, hv]
        rw [ReservationStatusWF, h2]
        intro r hr
        rcases hbuild store nextId now p hv r hr with h1 | h1
        · exact h1
        · exact h r h1
      · have h2 : (postReservation store nextId now p).2 = store := by
          simp [postReservation, hc, hv]
        rw [ReservationStatusWF, h2]
        exact h
    · have h2 : (postReservation store nextId now p).2 = store := by
        simp [postReservation, hc]
      rw [ReservationStatusWF, h2]
      exact h
  · intro store nextId now p h
    by_cases hv : reservationSaveValid p = true
    · have h2 : (postReservationNew store nextId now p).2 =
          store ++ [buildReservation nextId now p] := by
        simp [postReservationNew, hv]
      rw [ReservationStatusWF, h2]
      intro r hr
      rcases hbuild store nextId now p hv r hr with h1 | h1
      · exact h1
      · exact h r h1
    · have h2 : (postReservationNew store nextId now p).2 = store := by
        simp [postReservationNew, hv]
      rw [ReservationStatusWF, h2]
      exact h
  · intro secret req store i p h r hr
    have hhandler : ∀ r2 ∈ (putReservationHandler store i p).2,
        r2.status ∈ reservationStatusEnum ∨ r2.status = "cancelled" := by
      intro r2 hr2
      by_cases hok : putStatusOk p = true
      · cases hfind : store.find? (·.rid = i) with
        | none =>
          have h2 : (putReservationHandler store i p).2 = store := by
            simp [putReservationHandler, hok, hfind]
          rw [h2] at hr2
          exact Or.inl (h r2 hr2)
        | some r0 =>
          have h2 : (putReservationHandler store i p).2 =
              store.map (fun x => if x.rid = i then applySet x p else x) := by
            simp [putReservationHandler, hok, hfind]
          rw [h2] at hr2
          rw [List.mem_map] at hr2
          obtain ⟨y, hy, hxy⟩ := hr2
          by_cases hyi : y.rid = i
          · rw [if_pos hyi] at hxy
            obtain ⟨s, hs⟩ : ∃ s, p.status = some s := by
              cases hps : p.status with
              | none => rw [putStatusOk, hps] at hok; simp at hok
              | some s => exact ⟨s, rfl⟩
            have hstat : r2.status = s := by
              rw [← hxy]
              simp [applySet, hs]
            rw [putStatusOk, hs] at hok
            simp at hok
            rcases hok with h1 | h1 | h1
            · exact Or.inl (by rw [hstat, h1]; simp [reservationStatusEnum])
            · exact Or.inl (by rw [hstat, h1]; simp [reservationStatusEnum])
            · exact Or.inr (by rw [hstat, h1])
          · rw [if_neg hyi] at hxy
            rw [← hxy]
            exact Or.inl (h y hy)
      · have h2 : (putReservationHandler store i p).2 = store := by
          simp [putReservationHandler, hok]
        rw [h2] at hr2
        exact Or.inl (h r2 hr2)
    unfold putReservation at hr
    rcases runPrivateRole_cases secret ["staff", "admin"] req
        (fun _ => putReservationHandler store i p) store with h2 | ⟨c, h2⟩
    · rw [h2] at hr
      exact Or.inl (h r hr)
    · rw [h2] at hr
      exact hhandler r hr
  · intro tok store i s
    rfl

/-- Witness for C7 amended: the creation routes on a concrete valid payload
keep the enum; the staff `PUT` with status "cancelled" on a one-reservation
store lands in the widened set; a concrete `PATCH` request is answered 500
with the store untouched. -/
theorem reservation_status_enum_amended_witness :
    ReservationStatusWF (postReservation []
      1 0 ⟨some "A", some "a@b.c", some "1", some "d", some "t", some "surPlace",
        some 2, some 2, none, none, some 10, none⟩).2 ∧
    ReservationStatusWF (postReservationNew []
      1 0 ⟨some "A", some "a@b.c", some "1", some "d", some "t", some "surPlace",
        some 2, some 2, none, none, some 10, none⟩).2 ∧
    (∀ r ∈ (putReservation "k" (mkReq (some (.signed "k" ⟨2, "staff"⟩ false)))
        [⟨1, some "A", some "a@b.c", some "1", some "d", some "t", some "surPlace",
          some 2, none, none, some 10, "pending", 0⟩] 1
        ⟨none, none, none, none, none, none, none, none, none, none, none,
          some "cancelled"⟩).2,
      r.status ∈ reservationStatusEnum ∨ r.status = "cancelled") ∧
    patchReservationStatus (mkReq none) [] 1 none = (serverError, []) :=
  ⟨reservation_status_enum_amended.1 [] 1 0
    ⟨some "A", some "a@b.c", some "1", some "d", some "t", some "surPlace",
      some 2, some 2, none, none, some 10, none⟩ (by intro r hr; cases hr),
   reservation_status_enum_amended.2.1 [] 1 0
    ⟨some "A", some "a@b.c", some "1", some "d", some "t", some "surPlace",
      some 2, some 2, none, none, some 10, none⟩ (by intro r hr; cases hr),
   reservation_status_enum_amended.2.2.1 "k"
    (mkReq (some (.signed "k" ⟨2, "staff"⟩ false)))
    [⟨1, some "A", some "a@b.c", some "1", some "d", some "t", some "surPlace",
      some 2, none, none, some 10, "pending", 0⟩] 1
    ⟨none, none, none, none, none, none, none, none, none, none, none,
      some "cancelled"⟩ (by intro r hr; simp at hr; rw [hr]; decide),
   reservation_status_enum_amended.2.2.2 none [] 1 none⟩

end RestoMatch
